import Mathlib

/-!
Verification development for `src/bad_cpp_sample.cpp`.

The definitions below are a shallow embedding of the C/C++ source:
globals become explicit state records, each unsynchronized statement of a
thread body becomes an explicit machine step so that interleavings can be
expressed as schedules, allocation and file-handle usage is tracked by an
explicit accounting record, and 32-bit signed arithmetic is modelled on
`Int` with an explicit wrap to the range [-2^31, 2^31).
-/

namespace BadCppSample

/-! ## Unsynchronized shared counter (`g_counter`, `thread_function`)

The statement `g_counter++` at line 88 runs with no mutex held
(the source comment at line 87 reads: Issue 8: No mutex lock for shared
data).  At machine level it is two steps: a load of the global into a
thread-local register, then a store of register + 1.  A schedule is a
list of task indices; each occurrence runs the next pending step of that
task. -/

/-- One task executing the unsynchronized `g_counter++` of
`thread_function`.  `pc = 0`: about to load; `pc = 1`: loaded into `reg`,
about to store; `pc = 2`: done. -/
structure IncTask where
  pc : Nat
  reg : Int
  deriving DecidableEq, Repr

/-- Global state for the racing-increment model: the shared `g_counter`
and the per-task program counters and registers. -/
structure RaceState where
  g_counter : Int
  tasks : List IncTask
  deriving DecidableEq, Repr

/-- Run the next machine step of one task against the shared counter:
load it, or store the incremented register back. -/
def incStep (c : Int) (t : IncTask) : Int × IncTask :=
  match t.pc with
  | 0 => (c, { pc := 1, reg := c })
  | 1 => (t.reg + 1, { t with pc := 2 })
  | _ => (c, t)

/-- Run one scheduled step: task `i` (if it exists) executes its next
step of `g_counter++`. -/
def raceStep (s : RaceState) (i : Nat) : RaceState :=
  match s.tasks.get? i with
  | none => s
  | some t =>
      let p := incStep s.g_counter t
      { g_counter := p.1, tasks := s.tasks.set i p.2 }

/-- Run a whole schedule (an interleaving of the per-task steps). -/
def execSchedule (s : RaceState) (sched : List Nat) : RaceState :=
  sched.foldl raceStep s

/-- Initial state: `g_counter` holds `c0` and `n` worker tasks are about
to run `thread_function`. -/
def raceInit (n : Nat) (c0 : Int) : RaceState :=
  { g_counter := c0, tasks := List.replicate n { pc := 0, reg := 0 } }

/-- A schedule is complete when every task has executed both of its
steps. -/
def allDone (s : RaceState) : Bool :=
  s.tasks.all (fun t => t.pc == 2)

/-! ## The never-initialized global mutex (`g_mutex`)

Line 31 declares `pthread_mutex_t g_mutex;` with the source comment
Never initialized!  No call to `pthread_mutex_init` and no
`PTHREAD_MUTEX_INITIALIZER` appears anywhere in the translation unit.
`main` (lines 270 to 272) unconditionally runs
`pthread_mutex_lock(&g_mutex); g_counter++; pthread_mutex_unlock(&g_mutex);`. -/

/-- Events on `g_mutex` that the program can perform. -/
inductive MutexEvent
  | init
  | lock
  | unlock
  deriving DecidableEq, Repr

/-- Whether `g_mutex` has been initialized before `main` starts: the
program contains no `pthread_mutex_init` call and no static
`PTHREAD_MUTEX_INITIALIZER`, so it has not. -/
def g_mutex_initialized_at_startup : Bool := false

/-- The sequence of `g_mutex` events on the unconditional path through
`main` (lines 270 and 272); nothing else in the program touches
`g_mutex`. -/
def mainMutexTrace : List MutexEvent := [MutexEvent.lock, MutexEvent.unlock]

/-- Check a trace of mutex events: every `lock` must be preceded by an
`init` (the first argument carries whether the mutex is initialized so
far). -/
def locksAfterInit : Bool → List MutexEvent → Bool
  | _, [] => true
  | _, MutexEvent.init :: rest => locksAfterInit true rest
  | inited, MutexEvent.lock :: rest => inited && locksAfterInit inited rest
  | inited, MutexEvent.unlock :: rest => locksAfterInit inited rest

/-! ## `calculate_buffer_size` (lines 104 to 116)

The multiplication `num_elements * element_size` is 32-bit signed; we
model the usual twos-complement wrap-around explicitly.  When the
wrapped product fails the `> 0` test, the function returns the
uninitialized local `result`, which we model as `none`. -/

/-- Wrap an integer to the 32-bit twos-complement range
[-2147483648, 2147483648). -/
def toInt32 (x : Int) : Int :=
  (x + 2147483648) % 4294967296 - 2147483648

/-- Shallow embedding of `calculate_buffer_size`: `total_size` is the
32-bit product with wrap-around; if it is strictly positive it is
returned, otherwise the function falls through to `return result;` with
`result` never initialized, modelled as `none`. -/
def calculate_buffer_size (num_elements element_size : Int) : Option Int :=
  let total_size := toInt32 (num_elements * element_size)
  if total_size > 0 then some total_size else none

/-! ## `BadResourceManager` (lines 34 to 59) and `DerivedBadClass` (lines 62 to 69)

Resource usage is tracked by an accounting record: live `new[]`
allocations, live `malloc` allocations, and open `FILE*` handles.  The
heap of buffer contents is modelled separately for the clone claim. -/

/-- Allocation and handle accounting: live `new[]` blocks, live `malloc`
blocks, and open `FILE*` handles. -/
structure Accounting where
  newArrayLive : Nat
  mallocLive : Nat
  openFilesLive : Nat
  deriving DecidableEq, Repr

/-- Heap of buffer contents plus fresh-address and fresh-handle
counters.  `mem` maps each live `new[]` address to its byte contents. -/
structure Heap where
  nextAddr : Nat
  nextHandle : Nat
  mem : List (Nat × List Nat)
  deriving DecidableEq, Repr

/-- Read the whole buffer at address `a`. -/
def heapRead (h : Heap) (a : Nat) : Option (List Nat) :=
  (h.mem.find? (fun p => p.1 == a)).map Prod.snd

/-- Overwrite the buffer at address `a`. -/
def heapWrite (h : Heap) (a : Nat) (v : List Nat) : Heap :=
  { h with mem := h.mem.map (fun p => if p.1 == a then (a, v) else p) }

/-- The fields of a `BadResourceManager` object: the address of `data`,
the `file_handle`, and `buffer_size`. -/
structure BadResourceManager where
  data : Nat
  file_handle : Nat
  buffer_size : Int
  deriving DecidableEq, Repr

/-- The `BadResourceManager()` constructor (lines 36 to 40):
`data = new char[1024]`, `file_handle = fopen(...)`,
`buffer_size = 1024`.  It allocates a fresh 1024-byte zeroed buffer and
opens a fresh handle, bumping the accounting. -/
def brmConstruct (h : Heap) (acc : Accounting) :
    BadResourceManager × Heap × Accounting :=
  (⟨h.nextAddr, h.nextHandle, 1024⟩,
   { nextAddr := h.nextAddr + 1
     nextHandle := h.nextHandle + 1
     mem := (h.nextAddr, List.replicate 1024 0) :: h.mem },
   { acc with
     newArrayLive := acc.newArrayLive + 1
     openFilesLive := acc.openFilesLive + 1 })

/-- The `~BadResourceManager()` destructor (lines 43 to 46): its body is
empty (the source comments read: Missing: delete[] data; Missing:
fclose(file_handle);), so it releases nothing. -/
def brmDestruct (_m : BadResourceManager) (acc : Accounting) : Accounting :=
  acc

/-- The copy constructor
`BadResourceManager(const BadResourceManager&)` (lines 49 to 53):
`data = other.data; file_handle = other.file_handle;
buffer_size = other.buffer_size;` — it copies the pointer and the handle
and allocates nothing. -/
def brmCopyConstruct (other : BadResourceManager) : BadResourceManager :=
  ⟨other.data, other.file_handle, other.buffer_size⟩

/-- Store one byte at index `i` of the buffer owned by `m` (a write
through `m.data`). -/
def brmWriteByte (h : Heap) (m : BadResourceManager) (i : Nat) (v : Nat) :
    Heap :=
  match heapRead h m.data with
  | none => h
  | some bytes => heapWrite h m.data (bytes.set i v)

/-- Load the byte at index `i` of the buffer owned by `m`. -/
def brmReadByte (h : Heap) (m : BadResourceManager) (i : Nat) : Option Nat :=
  (heapRead h m.data).bind (fun bytes => bytes.get? i)

/-- The fields of a `DerivedBadClass` object: the inherited base
subobject plus `extra_data`, an address in the `malloc` family. -/
structure DerivedBadClass where
  base : BadResourceManager
  extra_data : Nat
  deriving DecidableEq, Repr

/-- The `DerivedBadClass()` constructor (lines 64 to 66): the base
constructor runs, then `extra_data = malloc(2048)` bumps the `malloc`
accounting. -/
def derivedConstruct (h : Heap) (acc : Accounting) :
    DerivedBadClass × Heap × Accounting :=
  let p := brmConstruct h acc
  (⟨p.1, p.2.1.nextAddr⟩,
   { p.2.1 with nextAddr := p.2.1.nextAddr + 1 },
   { p.2.2 with mallocLive := p.2.2.mallocLive + 1 })

/-- Destroying a `DerivedBadClass` through its own type: the class
declares no destructor, so the implicit destructor frees nothing itself
(in particular `extra_data` is not freed) and then runs the base
destructor, whose body is empty. -/
def derivedDestruct (d : DerivedBadClass) (acc : Accounting) : Accounting :=
  brmDestruct d.base acc

/-- Destroying a `DerivedBadClass` through a `BadResourceManager*`
owning handle: `~BadResourceManager` is not virtual (the source comment
at line 42 reads: Issue 2: Missing virtual destructor), so only the base
destructor runs — the derived layer is never reached. -/
def destroyViaBasePointer (d : DerivedBadClass) (acc : Accounting) :
    Accounting :=
  brmDestruct d.base acc

/-! ## `unsafe_string_operation` (lines 72 to 83) and the shared-text
write in `thread_function` (lines 91 to 93)

`local_buffer` has capacity 64.  `strcpy(local_buffer, input)` writes
`input.length + 1` bytes with no bounds check;
`strcat(local_buffer, "_suffix")` then appends 7 more characters and a
terminator.  There is no validation, no error value, and no path that
leaves the buffer unchanged when the input is too long. -/

/-- Capacity of `local_buffer` in `unsafe_string_operation`. -/
def LOCAL_BUFFER_CAPACITY : Nat := 64

/-- Outcome vocabulary of the specified `write_shared_text`: the spec
demands a `CapacityError` when the text does not fit.  The embedding of
the source can only ever produce `ok`. -/
inductive WriteOutcome
  | ok (stored : List Char)
  | capacityError
  deriving DecidableEq, Repr

/-- Shallow embedding of the writes of `unsafe_string_operation` into
`local_buffer`: the stored string after `strcpy` then `strcat`, paired
with the total extent in bytes written into the 64-byte buffer
(characters plus the final terminator).  No capacity test occurs on any
path. -/
def unsafe_string_operation (input : List Char) : WriteOutcome × Nat :=
  let copied := input
  let appended := copied ++ String.toList "_suffix"
  (WriteOutcome.ok appended, appended.length + 1)

/-! ## `thread_function` (lines 86 to 101), sequential contract

Per execution it increments `g_counter`, writes the shared text only
inside `if (g_buffer != NULL)`, leaks one `malloc(1000)` block, and
returns `NULL` — the pthread completion value. -/

/-- The globals `thread_function` touches, plus a counter of leaked
`malloc` blocks; `g_buffer = none` models the NULL pointer. -/
structure Globals where
  g_counter : Int
  g_buffer : Option (List Char)
  leakedMallocs : Nat
  deriving DecidableEq, Repr

/-- The completion signal of a pthread body: `return NULL;`. -/
inductive Completion
  | done
  deriving DecidableEq, Repr

/-- The string stored by the guarded `strcpy` at line 92. -/
def THREAD_MESSAGE : List Char := String.toList "Thread was here"

/-- Shallow embedding of `thread_function`: `g_counter++`; then
`if (g_buffer != NULL) strcpy(g_buffer, "Thread was here");`; then
`malloc(1000)` with a `strcpy` into it and no `free`; then
`return NULL;`. -/
def thread_function (s : Globals) : Globals × Completion :=
  let s1 := { s with g_counter := s.g_counter + 1 }
  let s2 :=
    match s1.g_buffer with
    | none => s1
    | some _ => { s1 with g_buffer := some THREAD_MESSAGE }
  let s3 := { s2 with leakedMallocs := s2.leakedMallocs + 1 }
  (s3, Completion.done)

/-! ## `BadSingleton` (lines 221 to 243)

`getInstance` is `if (instance == nullptr) instance = new BadSingleton();
return instance;` with no lock (the source comment at line 225 reads:
Issue 37: Not thread-safe).  The destructor is public and empty, there
is no shutdown operation and no error type; deleting the pointee does
not reset the static `instance` pointer. -/

/-- State of the `BadSingleton` class: the static pointer
(`instancePtr` stands for the static member `instance`, which is a
keyword in Lean), a fresh-address counter, how many times the private
constructor has run, and the addresses already passed to `delete`. -/
structure SingletonState where
  instancePtr : Option Nat
  nextAddr : Nat
  ctorRuns : Nat
  freed : List Nat
  deriving DecidableEq, Repr

/-- The state at program start: `BadSingleton::instance = nullptr`
(line 243). -/
def singletonInit : SingletonState :=
  { instancePtr := none, nextAddr := 0, ctorRuns := 0, freed := [] }

/-- Sequential `getInstance`: if the static pointer is null, run the
constructor at a fresh address and store it; in every case return the
stored pointer.  No state of the pointer makes it fail. -/
def getInstanceSeq (s : SingletonState) : SingletonState × Nat :=
  match s.instancePtr with
  | some a => (s, a)
  | none =>
      ({ s with
         instancePtr := some s.nextAddr
         nextAddr := s.nextAddr + 1
         ctorRuns := s.ctorRuns + 1 }, s.nextAddr)

/-- `delete` on a `BadSingleton*` through the public destructor
(line 232): the pointee is freed but the static `instance` pointer is
left unchanged. -/
def deleteSingleton (s : SingletonState) (a : Nat) : SingletonState :=
  { s with freed := a :: s.freed }

/-- One concurrent call to `getInstance`, split at its race point.
`pc = 0`: about to evaluate `instance == nullptr`; `pc = 1`: the test
saw null, about to run `instance = new BadSingleton()`; `pc = 2`: done,
`ret` holds the returned pointer. -/
structure GetInstanceCall where
  pc : Nat
  ret : Option Nat
  deriving DecidableEq, Repr

/-- State of several interleaved `getInstance` calls. -/
structure SingletonRace where
  store : SingletonState
  calls : List GetInstanceCall
  deriving DecidableEq, Repr

/-- Run the next machine step of one `getInstance` call: the null test,
or the construction-and-assignment it guards. -/
def getInstanceStep (st : SingletonState) (c : GetInstanceCall) :
    SingletonState × GetInstanceCall :=
  match c.pc with
  | 0 =>
      match st.instancePtr with
      | none => (st, { c with pc := 1 })
      | some a => (st, { pc := 2, ret := some a })
  | 1 =>
      ({ st with
         instancePtr := some st.nextAddr
         nextAddr := st.nextAddr + 1
         ctorRuns := st.ctorRuns + 1 },
       { pc := 2, ret := some st.nextAddr })
  | _ => (st, c)

/-- Run one scheduled step of call `i`. -/
def singletonRaceStep (s : SingletonRace) (i : Nat) : SingletonRace :=
  match s.calls.get? i with
  | none => s
  | some c =>
      let p := getInstanceStep s.store c
      { store := p.1, calls := s.calls.set i p.2 }

/-- Run a whole schedule of interleaved `getInstance` steps. -/
def execSingletonSchedule (s : SingletonRace) (sched : List Nat) :
    SingletonRace :=
  sched.foldl singletonRaceStep s

/-- Initial state for `n` concurrent first-time calls to
`getInstance`. -/
def singletonRaceInit (n : Nat) : SingletonRace :=
  { store := singletonInit
    calls := List.replicate n { pc := 0, ret := none } }

/-- Empty heap at program start. -/
def emptyHeap : Heap := ⟨0, 0, []⟩

/-- Accounting with no live allocations and no open handles. -/
def zeroAccounting : Accounting := ⟨0, 0, 0⟩

/-! ## Theorems -/

/-- C1: the claim fails on the code.  `thread_function` increments
`g_counter` with no mutex (line 88), so the increments are not
linearized by any guard.  Under the interleaving load(task 0),
load(task 1), store(task 0), store(task 1) of two complete increments
starting from counter 0, every task completes its call yet the final
counter is 1, not 0 + 2: a lost update. -/
theorem thread_function_lost_update :
    allDone (execSchedule (raceInit 2 0) [0, 1, 0, 1]) = true ∧
    (execSchedule (raceInit 2 0) [0, 1, 0, 1]).g_counter = 1 ∧
    (execSchedule (raceInit 2 0) [0, 1, 0, 1]).g_counter ≠ 0 + 2 := by
  decide

/-- C2: the claim fails on the code.  Constructing a
`BadResourceManager` and then destroying it leaves one live `new[]`
block and one open file handle: the destructor body is empty, so the
accounting does not return to its prior state — both the buffer and the
handle leak. -/
theorem brm_create_destroy_leaks :
    brmDestruct (brmConstruct emptyHeap zeroAccounting).1
        (brmConstruct emptyHeap zeroAccounting).2.2 =
      { newArrayLive := 1, mallocLive := 0, openFilesLive := 1 } ∧
    ({ newArrayLive := 1, mallocLive := 0, openFilesLive := 1 } : Accounting) ≠
      zeroAccounting := by
  decide

/-- C3: the claim fails on the code.  The copy constructor copies the
`data` pointer and the `file_handle` verbatim, so source and copy alias
the same buffer and the same handle; before the write the byte at
index 0 of the source buffer is 0, and writing 7 at index 0 through the
copy changes what the source reads there to 7. -/
theorem brm_copy_aliases_buffer :
    (brmCopyConstruct (brmConstruct emptyHeap zeroAccounting).1).data =
      (brmConstruct emptyHeap zeroAccounting).1.data ∧
    (brmCopyConstruct (brmConstruct emptyHeap zeroAccounting).1).file_handle =
      (brmConstruct emptyHeap zeroAccounting).1.file_handle ∧
    brmReadByte (brmConstruct emptyHeap zeroAccounting).2.1
      (brmConstruct emptyHeap zeroAccounting).1 0 = some 0 ∧
    brmReadByte
      (brmWriteByte (brmConstruct emptyHeap zeroAccounting).2.1
        (brmCopyConstruct (brmConstruct emptyHeap zeroAccounting).1) 0 7)
      (brmConstruct emptyHeap zeroAccounting).1 0 = some 7 := by
  decide

/-- C4: the claim fails on the code.  After constructing a
`DerivedBadClass` (one `new[]` block, one `malloc` block, one open
handle), destroying it through a base-typed pointer leaves the `malloc`
block `extra_data` live — and so does destroying it through its own
type, since no destructor in the chain frees anything. -/
theorem derived_destroy_leaks_extra :
    destroyViaBasePointer (derivedConstruct emptyHeap zeroAccounting).1
        (derivedConstruct emptyHeap zeroAccounting).2.2 =
      { newArrayLive := 1, mallocLive := 1, openFilesLive := 1 } ∧
    derivedDestruct (derivedConstruct emptyHeap zeroAccounting).1
        (derivedConstruct emptyHeap zeroAccounting).2.2 =
      { newArrayLive := 1, mallocLive := 1, openFilesLive := 1 } ∧
    zeroAccounting.mallocLive = 0 := by
  decide

/-- C5: the claim fails on the code.  `g_mutex` is never passed to any
initialization call, yet the unconditional path through `main` locks it
(line 270): the trace of mutex events contains a lock with no prior
initialization. -/
theorem main_locks_uninitialized_mutex :
    locksAfterInit g_mutex_initialized_at_startup mainMutexTrace = false := by
  decide

/-- C6: the claim fails on the code.  On a 100-character input,
`unsafe_string_operation` writes 108 bytes into the 64-byte
`local_buffer` — past its capacity — and its outcome is the completed
store of input ++ suffix, never `capacityError`, so the previous
content is not preserved. -/
theorem unsafe_string_operation_overruns :
    (unsafe_string_operation (List.replicate 100 'a')).2 = 108 ∧
    LOCAL_BUFFER_CAPACITY = 64 ∧
    (unsafe_string_operation (List.replicate 100 'a')).2 >
      LOCAL_BUFFER_CAPACITY ∧
    (unsafe_string_operation (List.replicate 100 'a')).1 =
      WriteOutcome.ok (List.replicate 100 'a' ++ String.toList "_suffix") ∧
    (unsafe_string_operation (List.replicate 100 'a')).1 ≠
      WriteOutcome.capacityError := by
  decide

/-- C7: the claim fails on the code.  Two concurrent first-time calls
to `getInstance`, interleaved as test(call 0), test(call 1),
construct(call 0), construct(call 1), both see the null pointer and
both run the constructor: it runs twice and the two calls return
distinct pointers 0 and 1. -/
theorem getInstance_double_construction :
    (execSingletonSchedule (singletonRaceInit 2) [0, 1, 0, 1]).store.ctorRuns
      = 2 ∧
    ((execSingletonSchedule (singletonRaceInit 2) [0, 1, 0, 1]).calls.map
      GetInstanceCall.ret) = [some 0, some 1] ∧
    (some 0 : Option Nat) ≠ some 1 := by
  decide

/-- C8: the claim fails on the code.  After the first `getInstance`
constructs the instance at address 0 and the owner deletes it through
the public destructor, the static pointer is still set, so the next
`getInstance` returns the same address 0 — now a freed, dangling
pointer — with no error of any kind and no new construction. -/
theorem getInstance_after_delete_returns_stale :
    (getInstanceSeq (deleteSingleton (getInstanceSeq singletonInit).1
      (getInstanceSeq singletonInit).2)).2 = 0 ∧
    0 ∈ (deleteSingleton (getInstanceSeq singletonInit).1
      (getInstanceSeq singletonInit).2).freed ∧
    (getInstanceSeq (deleteSingleton (getInstanceSeq singletonInit).1
      (getInstanceSeq singletonInit).2)).1.ctorRuns = 1 := by
  decide

/-- C9: confirmed.  Every execution of `thread_function` increments
`g_counter` by exactly one, writes the shared text only when `g_buffer`
is non-null (when it is null the buffer state is left untouched, so the
write never assumes the storage is present), and returns the completion
signal (`return NULL`). -/
theorem thread_function_run_contract (s : Globals) :
    (thread_function s).1.g_counter = s.g_counter + 1 ∧
    (thread_function s).1.g_buffer =
      (match s.g_buffer with
       | none => none
       | some _ => some THREAD_MESSAGE) ∧
    (thread_function s).2 = Completion.done := by
  cases s with
  | mk c b l => cases b <;> exact ⟨rfl, rfl, rfl⟩

/-- C9 witness: the contract of `thread_function` evaluated at the
concrete state with counter 41 and a present one-byte shared buffer. -/
theorem thread_function_run_contract_witness :
    (thread_function ⟨41, some ['x'], 0⟩).1.g_counter = 41 + 1 ∧
    (thread_function ⟨41, some ['x'], 0⟩).1.g_buffer =
      (match (some ['x'] : Option (List Char)) with
       | none => none
       | some _ => some THREAD_MESSAGE) ∧
    (thread_function ⟨41, some ['x'], 0⟩).2 = Completion.done :=
  thread_function_run_contract ⟨41, some ['x'], 0⟩

/-- C10: confirmed.  For all 32-bit operands, when the product wrapped
to 32 bits is strictly positive, `calculate_buffer_size` returns
exactly that wrapped product; the positivity test is applied to the
wrapped value, and when it is non-positive the function returns the
uninitialized local `result`, modelled as `none`. -/
theorem calculate_buffer_size_wrapped (a b : Int) :
    (0 < toInt32 (a * b) →
      calculate_buffer_size a b = some (toInt32 (a * b))) ∧
    (toInt32 (a * b) ≤ 0 → calculate_buffer_size a b = none) := by
  refine ⟨fun h => ?_, fun h => ?_⟩
  · simp [calculate_buffer_size, h]
  · simp [calculate_buffer_size, not_lt.mpr h]

/-- C10 witness: at 3 and 5 the wrapped product 15 is positive and is
returned; at 65536 and 65536 the mathematical product 2^32 wraps to 0,
which fails the positivity test, and no initialized value is
returned. -/
theorem calculate_buffer_size_wrapped_witness :
    calculate_buffer_size 3 5 = some (toInt32 (3 * 5)) ∧
    calculate_buffer_size 65536 65536 = none :=
  ⟨(calculate_buffer_size_wrapped 3 5).1 (by decide),
   (calculate_buffer_size_wrapped 65536 65536).2 (by decide)⟩

end BadCppSample
